import Mathlib

/-!
Verification development for the rainy-day OAuth2 credential lifecycle
(src/src-tauri/src/auth/{mod.rs, token_store.rs, keychain.rs}).

The Rust code is shallowly embedded as pure Lean functions:
  - the OS keychain and the filesystem are association lists inside an
    explicit `Env` record (platform I/O failures are outside the model;
    the keychain `NoEntry` cases are modelled exactly as the source
    handles them: get yields `none`, delete succeeds);
  - HTTP interaction with the token endpoint is an oracle
    `RefreshOracle : String → Except String RefreshResponse`
    mapping the refresh token sent in the form body to the response;
  - `chrono::Utc::now().timestamp()` becomes an explicit `now : Int`
    parameter (the source may observe marginally later instants inside
    one call; each embedded call uses a single instant);
  - file contents are typed (`FileContent`): serde serialization of the
    two JSON shapes is injective, so round-tripping is the identity.
-/

namespace RainyDay

/-- Decidable equality for `Except`, so closed statements about fallible
operations can be settled by `decide`. -/
instance {ε α : Type} [DecidableEq ε] [DecidableEq α] :
    DecidableEq (Except ε α) := fun x y =>
  match x, y with
  | .ok a, .ok b =>
    if h : a = b then .isTrue (by rw [h])
    else .isFalse (fun hh => by cases hh; exact h rfl)
  | .error a, .error b =>
    if h : a = b then .isTrue (by rw [h])
    else .isFalse (fun hh => by cases hh; exact h rfl)
  | .ok _, .error _ => .isFalse (fun hh => by cases hh)
  | .error _, .ok _ => .isFalse (fun hh => by cases hh)

/-- User info returned after successful authentication (mod.rs `UserInfo`). -/
structure UserInfo where
  email : String
  name : Option String
  picture : Option String
deriving DecidableEq, Repr

/-- Session metadata, non-sensitive, stored in JSON
(token_store.rs `SessionMetadata`). Note that this record has no
access-token and no refresh-token field. -/
structure SessionMetadata where
  email : String
  name : Option String
  picture : Option String
  expires_at : Int
  scopes_granted : List String
deriving DecidableEq, Repr

/-- In-memory token data (token_store.rs `ActiveSession`). -/
structure ActiveSession where
  access_token : String
  refresh_token : String
  expires_at : Int
  user_info : UserInfo
deriving DecidableEq, Repr

/-- Stored tokens format, the legacy combined file shape
(token_store.rs `StoredTokens`). -/
structure StoredTokens where
  access_token : String
  refresh_token : Option String
  expires_at : Int
  user_info : UserInfo
deriving DecidableEq, Repr

/-- Authentication status (mod.rs `AuthStatus`). -/
structure AuthStatus where
  is_authenticated : Bool
  user : Option UserInfo
  expires_at : Option Int
deriving DecidableEq, Repr

/-- Pending OAuth state during the authorization flow (mod.rs `PendingAuth`). -/
structure PendingAuth where
  pkce_verifier : String
  csrf_token : String
  redirect_port : Nat
deriving DecidableEq, Repr

/-- Typed file contents: the new-format metadata JSON, the legacy
combined session JSON, or anything else. -/
inductive FileContent where
  | metadata (m : SessionMetadata)
  | legacy (t : StoredTokens)
  | other (s : String)
deriving DecidableEq, Repr

/-- A serialized file holds a secret field exactly when it is the legacy
combined format (`StoredTokens` has `access_token`/`refresh_token`
fields; `SessionMetadata` has neither). -/
def holdsSecretFields : FileContent → Bool
  | .legacy _ => true
  | _ => false

/-- Association list update: set `k` to `v`, replacing any previous binding. -/
def alSet {α : Type} (l : List (String × α)) (k : String) (v : α) :
    List (String × α) :=
  (k, v) :: l.filter (fun kv => kv.1 != k)

/-- Association list lookup. -/
def alGet {α : Type} (l : List (String × α)) (k : String) : Option α :=
  (l.find? (fun kv => kv.1 == k)).map (fun kv => kv.2)

/-- Association list removal. -/
def alRemove {α : Type} (l : List (String × α)) (k : String) :
    List (String × α) :=
  l.filter (fun kv => kv.1 != k)

/-- The external world: OS keychain entries and filesystem entries. -/
structure Env where
  keychain : List (String × String)
  fs : List (String × FileContent)
deriving DecidableEq, Repr

/-- Embeds the keychain.rs key scheme: the keychain key for the refresh
token of `email` is the email followed by ":refresh_token". -/
def refreshTokenKey (email : String) : String :=
  email ++ ":refresh_token"

/-- Embeds keychain.rs `store_refresh_token`: writes the entry (platform write
assumed available). -/
def store_refresh_token (kc : List (String × String)) (email token : String) :
    List (String × String) :=
  alSet kc (refreshTokenKey email) token

/-- Embeds keychain.rs `get_refresh_token`: `NoEntry` is `none`, not an error. -/
def get_refresh_token (kc : List (String × String)) (email : String) :
    Option String :=
  alGet kc (refreshTokenKey email)

/-- Embeds keychain.rs `delete_refresh_token`: deleting an absent entry succeeds,
so the operation is total on the model. -/
def delete_refresh_token (kc : List (String × String)) (email : String) :
    List (String × String) :=
  alRemove kc (refreshTokenKey email)

/-- Embeds token_store.rs `TokenStore` fields (each `Arc<RwLock<...>>` slot
becomes a plain field; lock acquisition is atomic read or write of the
field). -/
structure TokenStoreState where
  session : Option ActiveSession
  metadata_path : Option String
  client_id : Option String
  client_secret : Option String
deriving DecidableEq, Repr

/-- Embeds token_store.rs `TokenStore::new`. -/
def TokenStore.new : TokenStoreState :=
  { session := none, metadata_path := none, client_id := none,
    client_secret := none }

/-- Successful token-endpoint refresh response body
(token_store.rs `RefreshResponse`). -/
structure RefreshResponse where
  access_token : String
  expires_in : Option Nat
deriving DecidableEq, Repr

/-- The token endpoint as an oracle: the response to a refresh request
carrying a given refresh token. `Except.error` covers transport errors
and non-2xx responses. -/
def RefreshOracle : Type := String → Except String RefreshResponse

/-- Result of a token-store operation: the returned value plus the
updated store state and external world. -/
structure StoreOp (α : Type) where
  res : Except String α
  store : TokenStoreState
  env : Env

def METADATA_FILENAME : String := "session_metadata.json"

def OLD_SESSION_FILENAME : String := "auth_session.json"

/-- Embeds token_store.rs `save_metadata`: serialize and write the metadata file. -/
def save_metadata (st : TokenStoreState) (env : Env) (m : SessionMetadata) :
    Except String Unit × Env :=
  match st.metadata_path with
  | none => (.error "Metadata path not initialized", env)
  | some p => (.ok (), { env with fs := alSet env.fs p (.metadata m) })

/-- Embeds token_store.rs `refresh_token_internal`: requires credentials, posts
the refresh form (the oracle), computes
`expires_at = now + expires_in` defaulting to `now + 3600`, persists the
updated metadata, and builds the new `ActiveSession` carrying the same
refresh token and the user info taken from the metadata. -/
def refresh_token_internal (st : TokenStoreState) (env : Env)
    (oracle : RefreshOracle) (now : Int)
    (refresh_token : String) (metadata : SessionMetadata) :
    Except String ActiveSession × Env :=
  match st.client_id with
  | none => (.error "Client ID not initialized", env)
  | some _ =>
    match st.client_secret with
    | none => (.error "Client secret not initialized", env)
    | some _ =>
      match oracle refresh_token with
      | .error e => (.error ("Token refresh failed: " ++ e), env)
      | .ok resp =>
        let expires_at : Int :=
          (resp.expires_in.map (fun d => now + (d : Int))).getD (now + 3600)
        match save_metadata st env { metadata with expires_at := expires_at } with
        | (.error e, env') => (.error e, env')
        | (.ok _, env') =>
          (.ok { access_token := resp.access_token
                 refresh_token := refresh_token
                 expires_at := expires_at
                 user_info := { email := metadata.email
                                name := metadata.name
                                picture := metadata.picture } }, env')

/-- Embeds token_store.rs `load_from_metadata`: read metadata, fetch the refresh
token from the keychain (absent: discard orphaned metadata, stay logged
out), then refresh. On the expired branch a refresh failure clears
keychain and metadata; on the still-valid branch a refresh failure is
only logged. Both failure branches return `ok`. -/
def load_from_metadata (st : TokenStoreState) (env : Env)
    (oracle : RefreshOracle) (now : Int) (metadata_path : String) :
    StoreOp Unit :=
  match alGet env.fs metadata_path with
  | some (.metadata md) =>
    match get_refresh_token env.keychain md.email with
    | none =>
      { res := .ok (), store := st
        env := { env with fs := alRemove env.fs metadata_path } }
    | some refresh_token =>
      if md.expires_at ≤ now then
        match refresh_token_internal st env oracle now refresh_token md with
        | (.ok session, env') =>
          { res := .ok (), store := { st with session := some session }, env := env' }
        | (.error _, env') =>
          { res := .ok (), store := st
            env := { env' with
                     keychain := delete_refresh_token env'.keychain md.email
                     fs := alRemove env'.fs metadata_path } }
      else
        match refresh_token_internal st env oracle now refresh_token md with
        | (.ok session, env') =>
          { res := .ok (), store := { st with session := some session }, env := env' }
        | (.error _, env') =>
          { res := .ok (), store := st, env := env' }
  | some _ => { res := .error "Failed to parse metadata", store := st, env := env }
  | none => { res := .error "Failed to read metadata", store := st, env := env }

/-- Embeds token_store.rs `migrate_from_old_format`: parse the legacy combined
file, move the refresh token (when present) into the keychain, write the
secrets-free metadata file, delete the legacy file, then load. -/
def migrate_from_old_format (st : TokenStoreState) (env : Env)
    (oracle : RefreshOracle) (now : Int) (old_path metadata_path : String) :
    StoreOp Unit :=
  match alGet env.fs old_path with
  | some (.legacy old_tokens) =>
    let email := old_tokens.user_info.email
    let kc := match old_tokens.refresh_token with
      | some refresh_token => store_refresh_token env.keychain email refresh_token
      | none => env.keychain
    let metadata : SessionMetadata :=
      { email := email
        name := old_tokens.user_info.name
        picture := old_tokens.user_info.picture
        expires_at := old_tokens.expires_at
        scopes_granted := [] }
    let fs1 := alSet env.fs metadata_path (.metadata metadata)
    let fs2 := alRemove fs1 old_path
    load_from_metadata st { keychain := kc, fs := fs2 } oracle now metadata_path
  | some _ => { res := .error "Failed to parse old session", store := st, env := env }
  | none => { res := .error "Failed to read old session", store := st, env := env }

/-- Embeds token_store.rs startup entry point (the `TokenStore` method that takes
the app data directory and the client credentials): record credentials and
the metadata path, then migrate from the legacy file if it exists, else
load the new-format metadata if it exists, else do nothing. -/
def initStore (st : TokenStoreState) (env : Env) (oracle : RefreshOracle)
    (now : Int) (app_data_dir client_id client_secret : String) :
    StoreOp Unit :=
  let metadata_path := app_data_dir ++ "/" ++ METADATA_FILENAME
  let old_session_path := app_data_dir ++ "/" ++ OLD_SESSION_FILENAME
  let st1 := { st with client_id := some client_id
                       client_secret := some client_secret
                       metadata_path := some metadata_path }
  if (alGet env.fs old_session_path).isSome then
    migrate_from_old_format st1 env oracle now old_session_path metadata_path
  else if (alGet env.fs metadata_path).isSome then
    load_from_metadata st1 env oracle now metadata_path
  else
    { res := .ok (), store := st1, env := env }

/-- Embeds token_store.rs `store_tokens`: keychain write when a refresh token is
present, metadata write, then install the in-memory session whose
refresh token is `unwrap_or_default()` of the optional one. -/
def store_tokens (st : TokenStoreState) (env : Env) (tokens : StoredTokens) :
    StoreOp Unit :=
  let email := tokens.user_info.email
  let kc := match tokens.refresh_token with
    | some refresh_token => store_refresh_token env.keychain email refresh_token
    | none => env.keychain
  let metadata : SessionMetadata :=
    { email := email
      name := tokens.user_info.name
      picture := tokens.user_info.picture
      expires_at := tokens.expires_at
      scopes_granted := [] }
  match save_metadata st { env with keychain := kc } metadata with
  | (.error e, env') => { res := .error e, store := st, env := env' }
  | (.ok _, env') =>
    let session : ActiveSession :=
      { access_token := tokens.access_token
        refresh_token := tokens.refresh_token.getD ""
        expires_at := tokens.expires_at
        user_info := tokens.user_info }
    { res := .ok (), store := { st with session := some session }, env := env' }

/-- Embeds token_store.rs `get_auth_status`. -/
def get_auth_status (st : TokenStoreState) (now : Int) : AuthStatus :=
  match st.session with
  | some session =>
    { is_authenticated := decide (session.expires_at > now + 300)
      user := some session.user_info
      expires_at := some session.expires_at }
  | none => { is_authenticated := false, user := none, expires_at := none }

/-- Embeds token_store.rs `get_access_token`: snapshot the session; within the
five-minute buffer, refresh, install the new session, and return the new
access token; otherwise return the cached token. -/
def get_access_token (st : TokenStoreState) (env : Env)
    (oracle : RefreshOracle) (now : Int) : StoreOp String :=
  match st.session with
  | none => { res := .error "Not authenticated", store := st, env := env }
  | some s =>
    if s.expires_at ≤ now + 300 then
      let metadata : SessionMetadata :=
        { email := s.user_info.email
          name := s.user_info.name
          picture := s.user_info.picture
          expires_at := s.expires_at
          scopes_granted := [] }
      match refresh_token_internal st env oracle now s.refresh_token metadata with
      | (.ok new_session, env') =>
        { res := .ok new_session.access_token
          store := { st with session := some new_session }, env := env' }
      | (.error e, env') => { res := .error e, store := st, env := env' }
    else
      { res := .ok s.access_token, store := st, env := env }

/-- Embeds token_store.rs `clear_tokens` (logout): delete the keychain entry for
the current session email (if any), remove the metadata file if it
exists, clear the in-memory session; always succeeds. -/
def clear_tokens (st : TokenStoreState) (env : Env) : StoreOp Unit :=
  let kc := match st.session with
    | some s => delete_refresh_token env.keychain s.user_info.email
    | none => env.keychain
  let fs := match st.metadata_path with
    | some p => if (alGet env.fs p).isSome then alRemove env.fs p else env.fs
    | none => env.fs
  { res := .ok (), store := { st with session := none }
    env := { keychain := kc, fs := fs } }

/-! Callback request parsing (mod.rs `extract_param`). Rust string
indices and `str::find` are byte based, so the request buffer is
embedded as a list of bytes; the separators the source searches for are
all ASCII, so byte-level search coincides with the source exactly. -/

/-- A byte string. -/
abbrev Bytes := List Nat

/-- Bytes of an ASCII string literal (all claim inputs are ASCII, where
UTF-8 bytes and code points coincide). -/
def asciiBytes (s : String) : Bytes :=
  s.toList.map Char.toNat

/-- Byte index of the first occurrence of a byte (`str::find(char)` for an
ASCII needle). -/
def findByte (buf : Bytes) (target : Nat) : Option Nat :=
  match buf with
  | [] => none
  | b :: rest =>
    if b = target then some 0 else (findByte rest target).map (fun i => i + 1)

/-- Byte index of the first occurrence of a byte sequence
(`str::find(&str)`). -/
def findSeq (buf pat : Bytes) : Option Nat :=
  if pat.isPrefixOf buf then some 0
  else
    match buf with
    | [] => none
    | _ :: rest => (findSeq rest pat).map (fun i => i + 1)

/-- Rust `str::split(char)` semantics: the empty string yields one empty
piece, adjacent separators yield empty pieces. -/
def splitOnByte (sep : Nat) : Bytes → List Bytes
  | [] => [[]]
  | b :: rest =>
    let r := splitOnByte sep rest
    if b = sep then [] :: r
    else
      match r with
      | h :: t => (b :: h) :: t
      | [] => [[b]]

/-- Value of an ASCII hex digit. -/
def hexDigitVal (b : Nat) : Option Nat :=
  if 48 ≤ b ∧ b ≤ 57 then some (b - 48)
  else if 65 ≤ b ∧ b ≤ 70 then some (b - 55)
  else if 97 ≤ b ∧ b ≤ 102 then some (b - 87)
  else none

/-- Percent decoding at byte level (the urlencoding crate): a `%` followed
by two hex digits becomes that byte; an invalid sequence emits the `%`
verbatim and continues with the next byte. -/
def percentDecodeBytes : Bytes → Bytes
  | 37 :: a :: b :: rest =>
    match hexDigitVal a, hexDigitVal b with
    | some hi, some lo => (16 * hi + lo) :: percentDecodeBytes rest
    | _, _ => 37 :: percentDecodeBytes (a :: b :: rest)
  | b :: rest => b :: percentDecodeBytes rest
  | [] => []

/-- UTF-8 continuation byte. -/
def isCont (b : Nat) : Bool :=
  decide (128 ≤ b ∧ b ≤ 191)

/-- UTF-8 validity of a byte string (`String::from_utf8` acceptance),
including the overlong-encoding and surrogate restrictions. -/
def validUtf8 : Bytes → Bool
  | [] => true
  | b :: rest =>
    if b ≤ 127 then validUtf8 rest
    else
      match rest with
      | [] => false
      | b2 :: rest2 =>
        if 194 ≤ b ∧ b ≤ 223 then isCont b2 && validUtf8 rest2
        else
          match rest2 with
          | [] => false
          | b3 :: rest3 =>
            if b = 224 then
              decide (160 ≤ b2 ∧ b2 ≤ 191) && isCont b3 && validUtf8 rest3
            else if (225 ≤ b ∧ b ≤ 236) ∨ b = 238 ∨ b = 239 then
              isCont b2 && isCont b3 && validUtf8 rest3
            else if b = 237 then
              decide (128 ≤ b2 ∧ b2 ≤ 159) && isCont b3 && validUtf8 rest3
            else
              match rest3 with
              | [] => false
              | b4 :: rest4 =>
                if b = 240 then
                  decide (144 ≤ b2 ∧ b2 ≤ 191) && isCont b3 && isCont b4 &&
                    validUtf8 rest4
                else if 241 ≤ b ∧ b ≤ 243 then
                  isCont b2 && isCont b3 && isCont b4 && validUtf8 rest4
                else if b = 244 then
                  decide (128 ≤ b2 ∧ b2 ≤ 143) && isCont b3 && isCont b4 &&
                    validUtf8 rest4
                else false

/-- The loop body of mod.rs `extract_param`: walk the `&`-separated pairs;
for each, split on the equals sign and read the first two pieces; on the
matching key,
percent-decode the value — a decode failure (invalid UTF-8) aborts the
whole extraction via the `?` operator rather than trying later pairs. -/
def lookupParam : List Bytes → Bytes → Option Bytes
  | [], _ => none
  | pair :: rest, param =>
    match splitOnByte 61 pair with
    | key :: value :: _ =>
      if key = param then
        let decoded := percentDecodeBytes value
        if validUtf8 decoded then some decoded else none
      else lookupParam rest param
    | _ => lookupParam rest param

/-- Embeds mod.rs `extract_param`: locate the first `?` (byte 63), end the query
at the first occurrence of the bytes of " HTTP" (or the end of the
buffer), split on `&` (byte 38), then scan the pairs. The source slices
`request[query_start+1..query_end]`, which panics when the end precedes
the start (only possible when " HTTP" occurs before the `?`); that panic
is modelled as extraction failure. -/
def extract_param (request param : Bytes) : Option Bytes :=
  match findByte request 63 with
  | none => none
  | some query_start =>
    let query_end := (findSeq request (asciiBytes " HTTP")).getD request.length
    if query_end < query_start + 1 then none
    else
      let query := (request.take query_end).drop (query_start + 1)
      lookupParam (splitOnByte 38 query) param

/-- Token-endpoint response to the authorization-code exchange
(mod.rs `GoogleTokenResponse`; the unused `token_type` field elided). -/
structure GoogleTokenResponse where
  access_token : String
  refresh_token : Option String
  expires_in : Option Nat
deriving DecidableEq, Repr

/-- Result of the callback command: returned status, the pending slot, the
token store and the external world after the call. -/
structure CallbackOp where
  res : Except String AuthStatus
  pending : Option PendingAuth
  store : TokenStoreState
  env : Env

/-- Embeds mod.rs `wait_for_oauth_callback`: requires a pending authorization;
receives `(code, state)` from the callback server (an oracle, covering
listener failures); checks the anti-forgery token BEFORE clearing the
pending slot — on mismatch the command errors with the pending slot left
in place and nothing stored; on match the pending slot is cleared, the
code is exchanged (`exchange` oracle), the user profile fetched
(`profile` oracle), `expires_at` is `now + expires_in` when present and
the stored value defaults to 0 via `unwrap_or(0)`, and the result is
handed to `store_tokens`. -/
def wait_for_oauth_callback (pending : Option PendingAuth)
    (callback : Except String (String × String))
    (exchange : Except String GoogleTokenResponse)
    (profile : Except String UserInfo)
    (now : Int) (st : TokenStoreState) (env : Env) : CallbackOp :=
  match pending with
  | none =>
    { res := .error "No pending OAuth flow. Call start_google_auth first."
      pending := pending, store := st, env := env }
  | some p =>
    match callback with
    | .error e =>
      { res := .error ("Callback error: " ++ e), pending := pending
        store := st, env := env }
    | .ok (_code, received_state) =>
      if p.csrf_token ≠ received_state then
        { res := .error "CSRF token mismatch - possible attack"
          pending := pending, store := st, env := env }
      else
        match exchange with
        | .error e =>
          { res := .error ("Token exchange failed: " ++ e), pending := none
            store := st, env := env }
        | .ok tokens =>
          match profile with
          | .error e =>
            { res := .error e, pending := none, store := st, env := env }
          | .ok user_info =>
            let expires_at : Option Int :=
              tokens.expires_in.map (fun d => now + (d : Int))
            let stored : StoredTokens :=
              { access_token := tokens.access_token
                refresh_token := tokens.refresh_token
                expires_at := expires_at.getD 0
                user_info := user_info }
            let op := store_tokens st env stored
            match op.res with
            | .ok _ =>
              { res := .ok { is_authenticated := true
                             user := some user_info
                             expires_at := expires_at }
                pending := none, store := op.store, env := op.env }
            | .error e =>
              { res := .error e, pending := none, store := op.store
                env := op.env }

/-! Concurrency model for `get_access_token`. The source takes an atomic
snapshot of the session under a read lock, DROPS the guard, performs the
refresh without any lock, and re-acquires a write lock to install the
result. Two concurrent callers are modelled as tasks with a program
counter; one scheduler step runs one caller up to its next lock-boundary
point. Coalescing the refresh and the write-back into a single atomic
step only removes interleavings, so any violation exhibited here is also
an execution of the source. -/

/-- Program counter of one `get_access_token` caller: before the
read-lock snapshot, after it (refresh pending), or returned. -/
inductive TaskPc where
  | ready
  | snapped
  | finished
deriving DecidableEq, Repr

/-- One caller: program counter, the session snapshot taken under the
read lock, and the access token eventually returned. -/
structure TaskSt where
  pc : TaskPc
  snap : Option ActiveSession
  result : Option String
deriving DecidableEq, Repr

/-- Shared state plus the two callers; `refreshCount` counts the refresh
requests actually sent to the token endpoint. -/
structure ConcSt where
  session : Option ActiveSession
  refreshCount : Nat
  task1 : TaskSt
  task2 : TaskSt
deriving DecidableEq, Repr

/-- Outcome of the k-th refresh request: a fresh access token (tagged by
k so distinct refreshes are observable) expiring in 3600 seconds. -/
def refreshOutcome (now : Int) (k : Nat) (s : ActiveSession) : ActiveSession :=
  { access_token := "fresh" ++ toString k
    refresh_token := s.refresh_token
    expires_at := now + 3600
    user_info := s.user_info }

/-- One scheduler step of one caller, following the body of
`get_access_token`: at `ready`, clone the session under the read lock
and drop the guard; at `snapped`, act on the snapshot — inside the
five-minute buffer send a refresh and install its result under a fresh
write lock, otherwise return the cached token. -/
def getAccessTokenStep (now : Int) (shared : Option ActiveSession)
    (count : Nat) (t : TaskSt) : Option ActiveSession × Nat × TaskSt :=
  match t.pc with
  | .ready => (shared, count, { t with pc := .snapped, snap := shared })
  | .snapped =>
    match t.snap with
    | none => (shared, count, { t with pc := .finished, result := none })
    | some s =>
      if s.expires_at ≤ now + 300 then
        let ns := refreshOutcome now count s
        (some ns, count + 1,
         { t with pc := .finished, result := some ns.access_token })
      else
        (shared, count, { t with pc := .finished, result := some s.access_token })
  | .finished => (shared, count, t)

/-- Run one step of the chosen caller (`true` picks the first task). -/
def schedStep (now : Int) (g : ConcSt) (pick : Bool) : ConcSt :=
  if pick then
    match getAccessTokenStep now g.session g.refreshCount g.task1 with
    | (sh, c, t) => { g with session := sh, refreshCount := c, task1 := t }
  else
    match getAccessTokenStep now g.session g.refreshCount g.task2 with
    | (sh, c, t) => { g with session := sh, refreshCount := c, task2 := t }

/-- Run a schedule (a list of caller choices). -/
def runSched (now : Int) (g : ConcSt) : List Bool → ConcSt
  | [] => g
  | pick :: rest => runSched now (schedStep now g pick) rest

/-- Both callers idle at the start, on a shared session. -/
def initConc (s : ActiveSession) : ConcSt :=
  { session := some s, refreshCount := 0
    task1 := { pc := .ready, snap := none, result := none }
    task2 := { pc := .ready, snap := none, result := none } }

/-! Association-list lemmas. -/

theorem find?_key_filter_ne {α : Type} (l : List (String × α)) (k k' : String)
    (h : k' ≠ k) :
    List.find? (fun kv => kv.1 == k') (l.filter (fun kv => kv.1 != k)) =
      List.find? (fun kv => kv.1 == k') l := by
  induction l with
  | nil => rfl
  | cons hd tl ih =>
    by_cases hk : hd.1 = k
    · rw [List.filter_cons_of_neg (by simp [hk]),
        List.find?_cons_of_neg tl (by simp [hk]; exact fun hh => h hh.symm)]
      exact ih
    · rw [List.filter_cons_of_pos (by simp [hk])]
      by_cases hk' : hd.1 = k'
      · rw [List.find?_cons_of_pos _ (by simp [hk']),
          List.find?_cons_of_pos _ (by simp [hk'])]
      · rw [List.find?_cons_of_neg _ (by simp [hk']),
          List.find?_cons_of_neg _ (by simp [hk'])]
        exact ih

theorem alGet_alSet_self {α : Type} (l : List (String × α)) (k : String)
    (v : α) : alGet (alSet l k v) k = some v := by
  unfold alGet alSet
  rw [List.find?_cons_of_pos _ (by simp)]
  rfl

theorem alGet_alSet_ne {α : Type} (l : List (String × α)) (k k' : String)
    (v : α) (h : k' ≠ k) : alGet (alSet l k v) k' = alGet l k' := by
  unfold alGet alSet
  rw [List.find?_cons_of_neg _ (by simp; exact fun hh => h hh.symm),
    find?_key_filter_ne l k k' h]

theorem alGet_alRemove_self {α : Type} (l : List (String × α)) (k : String) :
    alGet (alRemove l k) k = none := by
  unfold alGet alRemove
  induction l with
  | nil => rfl
  | cons hd tl ih =>
    by_cases hk : hd.1 = k
    · rwa [List.filter_cons_of_neg (by simp [hk])]
    · rwa [List.filter_cons_of_pos (by simp [hk]),
        List.find?_cons_of_neg _ (by simp [hk])]

theorem alGet_alRemove_ne {α : Type} (l : List (String × α)) (k k' : String)
    (h : k' ≠ k) : alGet (alRemove l k) k' = alGet l k' := by
  unfold alGet alRemove
  rw [find?_key_filter_ne l k k' h]

/-! Concrete fixtures used to instantiate the theorems. -/

def userAB : UserInfo :=
  { email := "a@b.com", name := none, picture := none }

def envEmpty : Env := { keychain := [], fs := [] }

/-- A session whose expiry (1000) is within the five-minute buffer of the
reference instant 1000. -/
def sessExpiring : ActiveSession :=
  { access_token := "oldtok", refresh_token := "rt0", expires_at := 1000
    user_info := userAB }

/-- A fully initialized store holding `sessExpiring`. -/
def stExpiring : TokenStoreState :=
  { session := some sessExpiring, metadata_path := some "p"
    client_id := some "cid", client_secret := some "cs" }

/-- A fully initialized store with no session. -/
def stInit : TokenStoreState :=
  { session := none, metadata_path := some "p"
    client_id := some "cid", client_secret := some "cs" }

/-- A token endpoint granting a token that expires immediately. -/
def tinyOracle : RefreshOracle :=
  fun _ => .ok { access_token := "newtok", expires_in := some 0 }

/-- A token endpoint granting a normal one-hour-minus-one token. -/
def fullOracle : RefreshOracle :=
  fun _ => .ok { access_token := "newtok", expires_in := some 3599 }

/-- A token endpoint that is down. -/
def errOracle : RefreshOracle := fun _ => .error "net down"

def pend0 : PendingAuth :=
  { pkce_verifier := "v", csrf_token := "tok", redirect_port := 8400 }

/-- Claim C9: `logout()` is idempotent — from every starting state the
first `clear_tokens` call succeeds, and the second call, which finds no
active session, is a no-op success: it returns `ok` and leaves the store
state and external world exactly as the first call left them. -/
theorem logout_idempotent (st : TokenStoreState) (env : Env) :
    (clear_tokens st env).res = .ok () ∧
    clear_tokens (clear_tokens st env).store (clear_tokens st env).env =
      { res := .ok (), store := (clear_tokens st env).store
        env := (clear_tokens st env).env } := by
  refine ⟨rfl, ?_⟩
  cases hmp : st.metadata_path with
  | none => simp [clear_tokens, hmp]
  | some p =>
    by_cases hg : (alGet env.fs p).isSome
    · simp [clear_tokens, hmp, hg, alGet_alRemove_self]
    · simp [clear_tokens, hmp, hg]

/-- Claim C10: when `store_tokens` receives no refresh token, no keychain
entry is written, the call still succeeds, the installed in-memory
session carries the empty string as its refresh token, and a later
buffered-expiry `get_access_token` sends its refresh request with that
empty refresh token (the outcome is exactly what the token endpoint
answers to the empty token). -/
theorem store_tokens_absent_refresh_token (st : TokenStoreState) (env : Env)
    (tokens : StoredTokens) (p cid cs : String)
    (hrt : tokens.refresh_token = none) (hp : st.metadata_path = some p)
    (h1 : st.client_id = some cid) (h2 : st.client_secret = some cs) :
    (store_tokens st env tokens).res = .ok () ∧
    (store_tokens st env tokens).env.keychain = env.keychain ∧
    (store_tokens st env tokens).store.session =
      some { access_token := tokens.access_token
             refresh_token := ""
             expires_at := tokens.expires_at
             user_info := tokens.user_info } ∧
    ∀ oracle : RefreshOracle, ∀ now : Int, tokens.expires_at ≤ now + 300 →
      (get_access_token (store_tokens st env tokens).store
          (store_tokens st env tokens).env oracle now).res =
        (match oracle "" with
         | .error e => .error ("Token refresh failed: " ++ e)
         | .ok r => .ok r.access_token) := by
  refine ⟨?_, ?_, ?_, ?_⟩
  · simp [store_tokens, save_metadata, hrt, hp]
  · simp [store_tokens, save_metadata, hrt, hp]
  · simp [store_tokens, save_metadata, hrt, hp]
  · intro oracle now hle
    simp only [store_tokens, save_metadata, hrt, hp]
    simp only [get_access_token, if_pos hle]
    simp only [refresh_token_internal, h1, h2]
    cases h : oracle "" with
    | error e => simp [h]
    | ok r => simp [h, save_metadata, hp]

/-- Claim C10 witness: the general theorem applied to a concrete store
and a concrete token set lacking a refresh token; the follow-up refresh
is answered by a token endpoint rejecting the empty refresh token. -/
theorem store_tokens_absent_refresh_token_witness :
    (store_tokens stInit envEmpty
        { access_token := "at", refresh_token := none, expires_at := 100
          user_info := userAB }).res = .ok () ∧
    (get_access_token
        (store_tokens stInit envEmpty
          { access_token := "at", refresh_token := none, expires_at := 100
            user_info := userAB }).store
        (store_tokens stInit envEmpty
          { access_token := "at", refresh_token := none, expires_at := 100
            user_info := userAB }).env
        errOracle 0).res = .error "Token refresh failed: net down" := by
  have h := store_tokens_absent_refresh_token stInit envEmpty
    { access_token := "at", refresh_token := none, expires_at := 100
      user_info := userAB } "p" "cid" "cs" rfl rfl rfl rfl
  exact ⟨h.1, h.2.2.2 errOracle 0 (by decide)⟩

/-- Claim C7: a successful refresh produces a session that retains the
refresh token that was sent and takes its user info from the existing
metadata; the access token becomes the one from the response and only
the expiry changes besides it; the keychain is untouched. -/
theorem refresh_retains_refresh_token_and_user (st : TokenStoreState)
    (env : Env) (oracle : RefreshOracle) (now : Int) (rt : String)
    (md : SessionMetadata) (cid cs p : String) (r : RefreshResponse)
    (h1 : st.client_id = some cid) (h2 : st.client_secret = some cs)
    (h3 : st.metadata_path = some p) (hr : oracle rt = .ok r) :
    (∃ ea : Int, (refresh_token_internal st env oracle now rt md).1 =
      .ok { access_token := r.access_token
            refresh_token := rt
            expires_at := ea
            user_info := { email := md.email, name := md.name
                           picture := md.picture } }) ∧
    (refresh_token_internal st env oracle now rt md).2.keychain =
      env.keychain := by
  refine ⟨⟨(r.expires_in.map (fun d => now + (d : Int))).getD (now + 3600), ?_⟩, ?_⟩
  · simp [refresh_token_internal, save_metadata, h1, h2, h3, hr]
  · simp [refresh_token_internal, save_metadata, h1, h2, h3, hr]

/-- Claim C7 witness: the theorem applied to a concrete initialized store
and a concrete successful response. -/
theorem refresh_retains_refresh_token_and_user_witness :
    (∃ ea : Int, (refresh_token_internal stInit envEmpty fullOracle 1000 "rt0"
        { email := "a@b.com", name := none, picture := none
          expires_at := 0, scopes_granted := [] }).1 =
      .ok { access_token := "newtok"
            refresh_token := "rt0"
            expires_at := ea
            user_info := userAB }) ∧
    (refresh_token_internal stInit envEmpty fullOracle 1000 "rt0"
        { email := "a@b.com", name := none, picture := none
          expires_at := 0, scopes_granted := [] }).2.keychain =
      envEmpty.keychain :=
  refresh_retains_refresh_token_and_user stInit envEmpty fullOracle 1000 "rt0"
    { email := "a@b.com", name := none, picture := none
      expires_at := 0, scopes_granted := [] } "cid" "cs" "p"
    { access_token := "newtok", expires_in := some 3599 } rfl rfl rfl rfl

/-- Claim C1 counterexample: with the in-memory session expiring exactly
at `now = 1000`, a refresh is performed, but the refresh response carries
`expires_in = 0`, so the access token returned by `get_access_token` has
`expires_at = 1000 ≤ now + 300` — the claimed guarantee
`expires_at > now + 300` does not hold for the returned token. -/
theorem get_access_token_buffer_counterexample :
    (get_access_token stExpiring envEmpty tinyOracle 1000).res = .ok "newtok" ∧
    (get_access_token stExpiring envEmpty tinyOracle 1000).store.session =
      some { access_token := "newtok", refresh_token := "rt0"
             expires_at := 1000, user_info := userAB } ∧
    ¬ ((1000 : Int) > 1000 + 300) := by
  refine ⟨by decide, by decide, by decide⟩

/-- Claim C1 amended: `get_access_token` compares the stored expiry
against `now + 300`; beyond the buffer it returns the cached token and
changes nothing; within the buffer it refreshes, persists the new expiry
to the metadata file, installs the new session (same refresh token and
user info), and returns the new access token — whose expiry is
`now + expires_in` (default 3600) and therefore exceeds `now + 300` only
when the granted `expires_in` exceeds 300 (in particular when it is
absent). -/
theorem get_access_token_amended (st : TokenStoreState) (env : Env)
    (oracle : RefreshOracle) (now : Int) (s : ActiveSession)
    (cid cs p : String) (hs : st.session = some s)
    (h1 : st.client_id = some cid) (h2 : st.client_secret = some cs)
    (h3 : st.metadata_path = some p) :
    (now + 300 < s.expires_at →
      get_access_token st env oracle now =
        { res := .ok s.access_token, store := st, env := env }) ∧
    (s.expires_at ≤ now + 300 → ∀ r : RefreshResponse,
      oracle s.refresh_token = .ok r →
      (get_access_token st env oracle now).res = .ok r.access_token ∧
      (get_access_token st env oracle now).store.session =
        some { access_token := r.access_token
               refresh_token := s.refresh_token
               expires_at :=
                 (r.expires_in.map (fun d => now + (d : Int))).getD (now + 3600)
               user_info := s.user_info } ∧
      alGet (get_access_token st env oracle now).env.fs p =
        some (.metadata
          { email := s.user_info.email, name := s.user_info.name
            picture := s.user_info.picture
            expires_at :=
              (r.expires_in.map (fun d => now + (d : Int))).getD (now + 3600)
            scopes_granted := [] }) ∧
      ((∀ d : Nat, r.expires_in = some d → 300 < (d : Int)) →
        now + 300 <
          (r.expires_in.map (fun d => now + (d : Int))).getD (now + 3600))) := by
  constructor
  · intro hgt
    simp [get_access_token, hs, if_neg (by omega : ¬ s.expires_at ≤ now + 300)]
  · intro hle r hr
    refine ⟨?_, ?_, ?_, ?_⟩
    · simp [get_access_token, hs, if_pos hle, refresh_token_internal,
        save_metadata, h1, h2, h3, hr]
    · simp [get_access_token, hs, if_pos hle, refresh_token_internal,
        save_metadata, h1, h2, h3, hr]
    · simp [get_access_token, hs, if_pos hle, refresh_token_internal,
        save_metadata, h1, h2, h3, hr, alGet_alSet_self]
    · intro hbig
      cases hd : r.expires_in with
      | none => simp
      | some d => have := hbig d hd; simp [hd]; omega

/-- Claim C1 witness: the amended theorem applied on the expired branch
at the concrete store `stExpiring` with a 3599-second grant: the refresh
result is returned and the refreshed expiry 4599 exceeds 1300. -/
theorem get_access_token_amended_witness :
    (get_access_token stExpiring envEmpty fullOracle 1000).res =
      .ok "newtok" ∧
    (1000 : Int) + 300 <
      ((some 3599 : Option Nat).map (fun d => 1000 + (d : Int))).getD
        (1000 + 3600) := by
  have h := (get_access_token_amended stExpiring envEmpty fullOracle 1000
    sessExpiring "cid" "cs" "p" rfl rfl rfl rfl).2 (by decide)
    { access_token := "newtok", expires_in := some 3599 } rfl
  exact ⟨h.1, h.2.2.2 (fun d hd => by cases hd; decide)⟩

/-- Claim C2 counterexample: a callback whose `state` differs from the
stored anti-forgery token fails with the security error, but the
pending-authorization slot is NOT cleared — after the call it still
holds the original `PendingAuth`, whereas the claim says it is cleared. -/
theorem csrf_mismatch_counterexample :
    (wait_for_oauth_callback (some pend0) (.ok ("c", "evil"))
        (.ok { access_token := "at", refresh_token := some "rt"
               expires_in := some 3599 })
        (.ok userAB) 1000 stInit envEmpty).res =
      .error "CSRF token mismatch - possible attack" ∧
    (wait_for_oauth_callback (some pend0) (.ok ("c", "evil"))
        (.ok { access_token := "at", refresh_token := some "rt"
               expires_in := some 3599 })
        (.ok userAB) 1000 stInit envEmpty).pending = some pend0 ∧
    some pend0 ≠ (none : Option PendingAuth) := by
  refine ⟨by decide, by decide, by decide⟩

/-- Claim C2 amended: on an anti-forgery mismatch the callback command
fails with the security error and neither persists nor installs
anything — the token store and the external world are returned
untouched — but the pending-authorization slot is left in place (the
source clears it only after the state check passes). -/
theorem csrf_mismatch_amended (p : PendingAuth) (code received : String)
    (exchange : Except String GoogleTokenResponse)
    (profile : Except String UserInfo) (now : Int)
    (st : TokenStoreState) (env : Env) (hne : p.csrf_token ≠ received) :
    wait_for_oauth_callback (some p) (.ok (code, received)) exchange profile
        now st env =
      { res := .error "CSRF token mismatch - possible attack"
        pending := some p, store := st, env := env } := by
  simp [wait_for_oauth_callback, hne]

/-- Claim C2 witness: the amended theorem at a concrete pending
authorization and a mismatching callback state. -/
theorem csrf_mismatch_amended_witness :
    wait_for_oauth_callback (some pend0) (.ok ("c", "evil"))
        (.ok { access_token := "at", refresh_token := some "rt"
               expires_in := some 3599 })
        (.ok userAB) 1000 stInit envEmpty =
      { res := .error "CSRF token mismatch - possible attack"
        pending := some pend0, store := stInit, env := envEmpty } :=
  csrf_mismatch_amended pend0 "c" "evil"
    (.ok { access_token := "at", refresh_token := some "rt"
           expires_in := some 3599 })
    (.ok userAB) 1000 stInit envEmpty (by decide)

/-- Claim C3 exhibit: `get_access_token` does not hold its guard across
the check-then-refresh-then-update sequence — it snapshots the session
under a read lock, drops the guard, refreshes, then writes. Under the
schedule where both callers snapshot the expiring session before either
writes back, TWO refresh requests are sent (`refreshCount = 2`) and the
later caller returns the token of its own second refresh ("fresh1"),
not the already-refreshed "fresh0" the claim promises it would observe. -/
theorem concurrent_refresh_duplicated :
    (runSched 1000 (initConc sessExpiring) [true, false, true, false]).refreshCount = 2 ∧
    (runSched 1000 (initConc sessExpiring) [true, false, true, false]).task1.result = some "fresh0" ∧
    (runSched 1000 (initConc sessExpiring) [true, false, true, false]).task2.result = some "fresh1" ∧
    some "fresh1" ≠ some "fresh0" := by
  refine ⟨by decide, by decide, by decide, by decide⟩

/-- Claim C8 counterexample: in the authorization-code-exchange path a
token response that omits `expires_in` is stored with `expires_at = 0`
(`unwrap_or(0)`), not `now + 3600`: at `now = 1000` the installed
session has expiry 0 and `0 ≠ 1000 + 3600`. -/
theorem exchange_expires_default_counterexample :
    (wait_for_oauth_callback (some pend0) (.ok ("c", "tok"))
        (.ok { access_token := "at", refresh_token := some "rt"
               expires_in := none })
        (.ok userAB) 1000 stInit envEmpty).store.session =
      some { access_token := "at", refresh_token := "rt", expires_at := 0
             user_info := userAB } ∧
    (0 : Int) ≠ 1000 + 3600 := by
  refine ⟨by decide, by decide⟩

/-- Claim C8 amended: when `expires_in` is absent, the REFRESH path
defaults the new expiry to `now + 3600`, whereas the
authorization-code-exchange path stores `expires_at = 0` (treating the
token as already expired). -/
theorem expires_default_amended (st : TokenStoreState) (env : Env)
    (oracle : RefreshOracle) (now : Int) (rt : String)
    (md : SessionMetadata) (cid cs p : String) (r : RefreshResponse)
    (h1 : st.client_id = some cid) (h2 : st.client_secret = some cs)
    (h3 : st.metadata_path = some p) (hr : oracle rt = .ok r)
    (hnone : r.expires_in = none) (pend : PendingAuth)
    (code : String) (tok : GoogleTokenResponse) (user : UserInfo)
    (st2 : TokenStoreState) (env2 : Env) (p2 : String)
    (htok : tok.expires_in = none) (hp2 : st2.metadata_path = some p2) :
    (refresh_token_internal st env oracle now rt md).1 =
      .ok { access_token := r.access_token
            refresh_token := rt
            expires_at := now + 3600
            user_info := { email := md.email, name := md.name
                           picture := md.picture } } ∧
    (wait_for_oauth_callback (some pend) (.ok (code, pend.csrf_token))
        (.ok tok) (.ok user) now st2 env2).store.session =
      some { access_token := tok.access_token
             refresh_token := tok.refresh_token.getD ""
             expires_at := 0
             user_info := user } := by
  constructor
  · simp [refresh_token_internal, save_metadata, h1, h2, h3, hr, hnone]
  · simp [wait_for_oauth_callback, store_tokens, save_metadata, htok, hp2]

/-- Claim C8 witness: the amended theorem at concrete inputs — a refresh
response without `expires_in` at `now = 1000` yields expiry 4600, and a
code-exchange response without `expires_in` yields a stored expiry of 0. -/
theorem expires_default_amended_witness :
    (refresh_token_internal stInit envEmpty
        (fun _ => .ok { access_token := "at2", expires_in := none })
        1000 "rt0"
        { email := "a@b.com", name := none, picture := none
          expires_at := 0, scopes_granted := [] }).1 =
      .ok { access_token := "at2", refresh_token := "rt0"
            expires_at := 1000 + 3600, user_info := userAB } ∧
    (wait_for_oauth_callback (some pend0) (.ok ("c", "tok"))
        (.ok { access_token := "at", refresh_token := some "rt"
               expires_in := none })
        (.ok userAB) 1000 stInit envEmpty).store.session =
      some { access_token := "at", refresh_token := "rt", expires_at := 0
             user_info := userAB } :=
  expires_default_amended stInit envEmpty
    (fun _ => .ok { access_token := "at2", expires_in := none }) 1000 "rt0"
    { email := "a@b.com", name := none, picture := none
      expires_at := 0, scopes_granted := [] } "cid" "cs" "p"
    { access_token := "at2", expires_in := none } rfl rfl rfl rfl rfl
    pend0 "c"
    { access_token := "at", refresh_token := some "rt", expires_in := none }
    userAB stInit envEmpty "p" rfl rfl

/-- Metadata whose expiry (5000) is still in the future at instant 1000. -/
def mdValid : SessionMetadata :=
  { email := "a@b.com", name := none, picture := none, expires_at := 5000
    scopes_granted := [] }

/-- Metadata whose expiry has already passed at instant 1000. -/
def mdExpired : SessionMetadata :=
  { email := "a@b.com", name := none, picture := none, expires_at := 0
    scopes_granted := [] }

/-- A world holding new-format state: a keychain refresh token and the
still-valid metadata file under the app data directory "d". -/
def envLoadedValid : Env :=
  { keychain := [("a@b.com:refresh_token", "rt0")]
    fs := [("d/session_metadata.json", .metadata mdValid)] }

/-- Same world but with the already-expired metadata. -/
def envLoadedExpired : Env :=
  { keychain := [("a@b.com:refresh_token", "rt0")]
    fs := [("d/session_metadata.json", .metadata mdExpired)] }

/-- Claim C4 counterexample: startup load of a still-valid session whose
refresh fails (token endpoint down) leaves the keychain entry AND the
metadata file in place — they are not deleted as the claim states; only
the in-memory session stays absent and the call still returns `ok`. -/
theorem startup_refresh_failure_counterexample :
    (initStore TokenStore.new envLoadedValid errOracle 1000 "d" "cid" "cs").res
      = .ok () ∧
    (initStore TokenStore.new envLoadedValid errOracle 1000 "d" "cid"
      "cs").store.session = none ∧
    alGet (initStore TokenStore.new envLoadedValid errOracle 1000 "d" "cid"
      "cs").env.keychain "a@b.com:refresh_token" = some "rt0" ∧
    alGet (initStore TokenStore.new envLoadedValid errOracle 1000 "d" "cid"
      "cs").env.fs "d/session_metadata.json" = some (.metadata mdValid) := by
  refine ⟨by decide, by decide, by decide, by decide⟩

/-- Claim C4 amended: during startup load, a failed refresh never
surfaces an error and never installs a session; the vault entry and the
metadata file are deleted only when the loaded expiry has already passed
(`expires_at ≤ now`) — when the session is still valid the failed
refresh leaves the vault and the metadata file untouched. -/
theorem startup_refresh_failure_amended (st : TokenStoreState) (env : Env)
    (oracle : RefreshOracle) (now : Int) (dir cid cs : String)
    (md : SessionMetadata) (rt e : String) (hsess : st.session = none)
    (hold : alGet env.fs (dir ++ "/" ++ OLD_SESSION_FILENAME) = none)
    (hmd : alGet env.fs (dir ++ "/" ++ METADATA_FILENAME) =
      some (.metadata md))
    (hkc : get_refresh_token env.keychain md.email = some rt)
    (horacle : oracle rt = .error e) :
    (initStore st env oracle now dir cid cs).res = .ok () ∧
    (initStore st env oracle now dir cid cs).store.session = none ∧
    (md.expires_at ≤ now →
      (initStore st env oracle now dir cid cs).env.keychain =
        delete_refresh_token env.keychain md.email ∧
      (initStore st env oracle now dir cid cs).env.fs =
        alRemove env.fs (dir ++ "/" ++ METADATA_FILENAME)) ∧
    (now < md.expires_at →
      (initStore st env oracle now dir cid cs).env = env) := by
  by_cases hexp : md.expires_at ≤ now
  · refine ⟨?_, ?_, fun _ => ⟨?_, ?_⟩, fun hlt => absurd hexp (by omega)⟩ <;>
      simp [initStore, load_from_metadata, refresh_token_internal, hold, hmd,
        hkc, horacle, hexp, hsess]
  · refine ⟨?_, ?_, fun hle => absurd hle hexp, fun _ => ?_⟩ <;>
      simp [initStore, load_from_metadata, refresh_token_internal, hold, hmd,
        hkc, horacle, hexp, hsess]

/-- Claim C4 witness: the amended theorem at the concrete expired world —
the failed startup refresh returns `ok`, installs no session, and clears
the keychain entry and the metadata file. -/
theorem startup_refresh_failure_amended_witness :
    (initStore TokenStore.new envLoadedExpired errOracle 1000 "d" "cid"
      "cs").res = .ok () ∧
    (initStore TokenStore.new envLoadedExpired errOracle 1000 "d" "cid"
      "cs").env.keychain =
      delete_refresh_token envLoadedExpired.keychain "a@b.com" := by
  have h := startup_refresh_failure_amended TokenStore.new envLoadedExpired
    errOracle 1000 "d" "cid" "cs" mdExpired "rt0" "net down" rfl rfl rfl rfl
    rfl
  exact ⟨h.1, (h.2.2.1 (by decide)).1⟩

/-- The two well-known session file names never collide, whatever the
app data directory. -/
theorem metadata_path_ne_old_path (dir : String) :
    dir ++ "/" ++ METADATA_FILENAME ≠ dir ++ "/" ++ OLD_SESSION_FILENAME := by
  intro h
  have hlen := congrArg String.length h
  rw [String.length_append, String.length_append, String.length_append,
    String.length_append] at hlen
  have e1 : METADATA_FILENAME.length = 21 := by decide
  have e2 : OLD_SESSION_FILENAME.length = 17 := by decide
  rw [e1, e2] at hlen
  omega

/-- A legacy combined session file whose stored expiry already passed. -/
def legacyExpired : StoredTokens :=
  { access_token := "oldat", refresh_token := some "rt0", expires_at := 0
    user_info := userAB }

/-- A legacy combined session file whose stored expiry is still ahead. -/
def legacyValid : StoredTokens :=
  { access_token := "oldat", refresh_token := some "rt0", expires_at := 5000
    user_info := userAB }

def envLegacyExpired : Env :=
  { keychain := [], fs := [("d/auth_session.json", .legacy legacyExpired)] }

def envLegacyValid : Env :=
  { keychain := [], fs := [("d/auth_session.json", .legacy legacyValid)] }

/-- Claim C5 counterexample: the legacy file holds a refresh token for
"a@b.com" but its expiry has passed, and the startup refresh that
follows migration fails; the load step then deletes both the freshly
migrated vault entry and the metadata file, so after startup the vault
does NOT contain "a@b.com:refresh_token" and the metadata file does not
exist, contrary to the claim (the legacy file is gone, as claimed). -/
theorem migration_counterexample :
    alGet (initStore TokenStore.new envLegacyExpired errOracle 1000 "d"
      "cid" "cs").env.keychain "a@b.com:refresh_token" = none ∧
    alGet (initStore TokenStore.new envLegacyExpired errOracle 1000 "d"
      "cid" "cs").env.fs "d/session_metadata.json" = none ∧
    alGet (initStore TokenStore.new envLegacyExpired errOracle 1000 "d"
      "cid" "cs").env.fs "d/auth_session.json" = none := by
  refine ⟨by decide, by decide, by decide⟩

/-- Claim C5 amended: after startup from a legacy combined file holding a
refresh token, the vault holds the entry `email:refresh_token` with the
original value, the metadata file exists and is secrets-free, and the
legacy file is gone — PROVIDED the startup load that follows the
migration does not hit a failing refresh on an already-expired session
(in that one case the load step deletes the vault entry and the metadata
file again; the legacy file stays deleted regardless). -/
theorem migration_amended (st : TokenStoreState) (env : Env)
    (oracle : RefreshOracle) (now : Int) (dir cid cs : String)
    (tokens : StoredTokens) (rt : String)
    (hold : alGet env.fs (dir ++ "/" ++ OLD_SESSION_FILENAME) =
      some (.legacy tokens))
    (hrt : tokens.refresh_token = some rt)
    (hok : now < tokens.expires_at ∨ ∃ r, oracle rt = .ok r) :
    (initStore st env oracle now dir cid cs).res = .ok () ∧
    alGet (initStore st env oracle now dir cid cs).env.keychain
      (refreshTokenKey tokens.user_info.email) = some rt ∧
    (∃ m : SessionMetadata,
      alGet (initStore st env oracle now dir cid cs).env.fs
        (dir ++ "/" ++ METADATA_FILENAME) = some (.metadata m) ∧
      holdsSecretFields (.metadata m) = false) ∧
    alGet (initStore st env oracle now dir cid cs).env.fs
      (dir ++ "/" ++ OLD_SESSION_FILENAME) = none := by
  have hne := metadata_path_ne_old_path dir
  have hne' := Ne.symm hne
  by_cases hexp : tokens.expires_at ≤ now
  · obtain ⟨r, hr⟩ : ∃ r, oracle rt = .ok r := by
      rcases hok with h | h
      · exact absurd h (by omega)
      · exact h
    refine ⟨?_, ?_,
      ⟨{ email := tokens.user_info.email, name := tokens.user_info.name
         picture := tokens.user_info.picture
         expires_at :=
           (r.expires_in.map (fun d => now + (d : Int))).getD (now + 3600)
         scopes_granted := [] }, ?_, rfl⟩, ?_⟩ <;>
      simp [initStore, migrate_from_old_format, load_from_metadata,
        refresh_token_internal, save_metadata, store_refresh_token,
        get_refresh_token, hold, hrt, hexp, hr, hne, hne',
        alGet_alSet_self, alGet_alSet_ne, alGet_alRemove_ne,
        alGet_alRemove_self]
  · cases hr : oracle rt with
    | ok r =>
      refine ⟨?_, ?_,
        ⟨{ email := tokens.user_info.email, name := tokens.user_info.name
           picture := tokens.user_info.picture
           expires_at :=
             (r.expires_in.map (fun d => now + (d : Int))).getD (now + 3600)
           scopes_granted := [] }, ?_, rfl⟩, ?_⟩ <;>
        simp [initStore, migrate_from_old_format, load_from_metadata,
          refresh_token_internal, save_metadata, store_refresh_token,
          get_refresh_token, hold, hrt, hexp, hr, hne, hne',
          alGet_alSet_self, alGet_alSet_ne, alGet_alRemove_ne,
          alGet_alRemove_self]
    | error e =>
      refine ⟨?_, ?_,
        ⟨{ email := tokens.user_info.email, name := tokens.user_info.name
           picture := tokens.user_info.picture
           expires_at := tokens.expires_at
           scopes_granted := [] }, ?_, rfl⟩, ?_⟩ <;>
        simp [initStore, migrate_from_old_format, load_from_metadata,
          refresh_token_internal, save_metadata, store_refresh_token,
          get_refresh_token, hold, hrt, hexp, hr, hne, hne',
          alGet_alSet_self, alGet_alSet_ne, alGet_alRemove_ne,
          alGet_alRemove_self]

/-- Claim C5 witness: the amended theorem at the concrete still-valid
legacy world (the startup refresh outcome is then irrelevant; here the
endpoint is down and the migrated state survives). -/
theorem migration_amended_witness :
    (initStore TokenStore.new envLegacyValid errOracle 1000 "d" "cid"
      "cs").res = .ok () ∧
    alGet (initStore TokenStore.new envLegacyValid errOracle 1000 "d" "cid"
      "cs").env.keychain (refreshTokenKey "a@b.com") = some "rt0" := by
  have h := migration_amended TokenStore.new envLegacyValid errOracle 1000
    "d" "cid" "cs" legacyValid "rt0" (by decide) rfl (Or.inl (by decide))
  exact ⟨h.1, h.2.1⟩

/-- Claim C6 counterexample: the source splits each pair on EVERY `=` and
takes the first two pieces, so for the pair `code=AB=C` the extracted
value is `AB` — not `AB=C`, as the claim ("the value is everything after
the first `=`, including any further `=` characters") would require. -/
theorem extract_param_counterexample :
    extract_param (asciiBytes "GET /?code=AB=C&state=XYZ HTTP/1.1")
      (asciiBytes "code") = some (asciiBytes "AB") ∧
    some (asciiBytes "AB") ≠ some (asciiBytes "AB=C") := by
  refine ⟨by decide, by decide⟩

/-- Claim C6 amended: query extraction locates the first `?`, ends the
query at the first occurrence of " HTTP" (or the end of the buffer when
absent), splits on `&`, splits each pair on `=` taking the piece before
the first `=` as the key and the piece strictly between the first and
second `=` (or the end of the pair) as the value, then percent-decodes
the value. Exhibited on the specified example (code = ABC, state = XYZ),
on a buffer without " HTTP", on a percent-encoded value, and on the
multi-`=` pair where the value stops at the second `=`. -/
theorem extract_param_amended :
    extract_param (asciiBytes "GET /?code=ABC&state=XYZ HTTP/1.1\r\nHost: x")
      (asciiBytes "code") = some (asciiBytes "ABC") ∧
    extract_param (asciiBytes "GET /?code=ABC&state=XYZ HTTP/1.1\r\nHost: x")
      (asciiBytes "state") = some (asciiBytes "XYZ") ∧
    extract_param (asciiBytes "GET /?code=ABC&state=XYZ")
      (asciiBytes "state") = some (asciiBytes "XYZ") ∧
    extract_param (asciiBytes "GET /?code=A%20B&state=XYZ HTTP/1.1")
      (asciiBytes "code") = some (asciiBytes "A B") ∧
    extract_param (asciiBytes "GET /?code=AB=C&state=XYZ HTTP/1.1")
      (asciiBytes "code") = some (asciiBytes "AB") := by
  refine ⟨by decide, by decide, by decide, by decide, by decide⟩

end RainyDay
